import Mathlib

/-!
# Verification of `src/js/practice/task/08-objects-tasks.js`

A shallow embedding of the repository's CSS selector builder and of its
JSON helpers (`getJSON`, `fromJSON`, `Rectangle`), together with proofs of
the specification's claims about them.

The builder (`CssSelectorBuilder`) keeps an ordered list of fragments;
each appending method first checks ordering, then (for element/id/
pseudo-element) cardinality, and only then pushes the fragment.  A JS
method mutates `this` and may throw; we embed each method as a function
`CssSelectorBuilder → Option Err × CssSelectorBuilder` returning the error
raised (if any) together with the state of the receiver after the call —
in the source every `throw` happens before the `push`, which the
definitions below reflect literally.
-/

namespace ObjectsTasks

/-- The six typed selector kinds of the source's `order` table.  The source
method named `class` is rendered here as `cls` (`class` is a Lean keyword).
Fragments produced by `combine` carry *no* kind: in the JS object literal
`{ value }` the `type` field is absent, which we model with `Option Kind`
on fragments. -/
inductive Kind where
  | element
  | id
  | cls
  | attr
  | pseudoClass
  | pseudoElement
  deriving DecidableEq, Repr, Fintype

/-- The `this.order` table built in the constructor:
`{ element: 0, id: 1, class: 2, attr: 3, pseudoClass: 4, pseudoElement: 5 }`. -/
def order : Kind → Nat
  | .element => 0
  | .id => 1
  | .cls => 2
  | .attr => 3
  | .pseudoClass => 4
  | .pseudoElement => 5

/-- One entry of `this.selectors`: `{ type, value }` for the six typed
methods, `{ value }` (so `type = none`) for `combine`. -/
structure Fragment where
  type : Option Kind
  value : String
  deriving DecidableEq, Repr

/-- The builder state: the `this.selectors` array (the constant `order`
table lives outside the structure). -/
structure CssSelectorBuilder where
  selectors : List Fragment
  deriving DecidableEq, Repr

/-- The two errors thrown by the builder's checks. -/
inductive Err where
  | orderViolation
  | duplicateSelector
  deriving DecidableEq, Repr

namespace CssSelectorBuilder

/-- `new CssSelectorBuilder()`: starts with an empty `selectors` array. -/
def empty : CssSelectorBuilder := ⟨[]⟩

/-- `checkCount(type)` as a predicate: `true` means the check passes
(no fragment of this `type` is present), `false` means the JS method
throws the duplicate-selector `Error`. -/
def checkCount (b : CssSelectorBuilder) (type : Kind) : Bool :=
  !(b.selectors.any (fun selector => selector.type == some type))

/-- `checkOrder(type)` as a predicate: `true` means the check passes.
The source compares `this.order[prevSelector.type] > this.order[type]`
on the *last* element of `selectors`; when the last fragment came from
`combine` its `type` is `undefined`, `this.order[undefined]` is
`undefined`, and `undefined > n` is `false` in JS, so the check passes. -/
def checkOrder (b : CssSelectorBuilder) (type : Kind) : Bool :=
  match b.selectors.getLast? with
  | none => true
  | some prevSelector =>
    match prevSelector.type with
    | none => true
    | some prev => !(decide (order prev > order type))

/-- `element(value)`: order check, count check, then push `{ type, value }`. -/
def element (b : CssSelectorBuilder) (value : String) :
    Option Err × CssSelectorBuilder :=
  if !(b.checkOrder .element) then (some .orderViolation, b)
  else if !(b.checkCount .element) then (some .duplicateSelector, b)
  else (none, ⟨b.selectors ++ [⟨some .element, value⟩]⟩)

/-- `id(value)`: order check, count check, then push `{ type, value: '#'+value }`. -/
def id (b : CssSelectorBuilder) (value : String) :
    Option Err × CssSelectorBuilder :=
  if !(b.checkOrder .id) then (some .orderViolation, b)
  else if !(b.checkCount .id) then (some .duplicateSelector, b)
  else (none, ⟨b.selectors ++ [⟨some .id, "#" ++ value⟩]⟩)

/-- `class(value)`: order check only, then push `{ type, value: '.'+value }`. -/
def cls (b : CssSelectorBuilder) (value : String) :
    Option Err × CssSelectorBuilder :=
  if !(b.checkOrder .cls) then (some .orderViolation, b)
  else (none, ⟨b.selectors ++ [⟨some .cls, "." ++ value⟩]⟩)

/-- `attr(value)`: order check only, then push `{ type, value: '['+value+']' }`. -/
def attr (b : CssSelectorBuilder) (value : String) :
    Option Err × CssSelectorBuilder :=
  if !(b.checkOrder .attr) then (some .orderViolation, b)
  else (none, ⟨b.selectors ++ [⟨some .attr, "[" ++ value ++ "]"⟩]⟩)

/-- `pseudoClass(value)`: order check only, then push `{ type, value: ':'+value }`. -/
def pseudoClass (b : CssSelectorBuilder) (value : String) :
    Option Err × CssSelectorBuilder :=
  if !(b.checkOrder .pseudoClass) then (some .orderViolation, b)
  else (none, ⟨b.selectors ++ [⟨some .pseudoClass, ":" ++ value⟩]⟩)

/-- `pseudoElement(value)`: order check, count check, then push
`{ type, value: '::'+value }`. -/
def pseudoElement (b : CssSelectorBuilder) (value : String) :
    Option Err × CssSelectorBuilder :=
  if !(b.checkOrder .pseudoElement) then (some .orderViolation, b)
  else if !(b.checkCount .pseudoElement) then (some .duplicateSelector, b)
  else (none, ⟨b.selectors ++ [⟨some .pseudoElement, "::" ++ value⟩]⟩)

/-- `stringify()`: `this.selectors.map((s) => s.value).join('')`. -/
def stringify (b : CssSelectorBuilder) : String :=
  String.join (b.selectors.map (fun selector => selector.value))

/-- `stringify()` viewed as a method call: its result together with the
state of the receiver after the call.  The body only reads
`this.selectors` (`map` and `join` allocate fresh values), so the
post-call state is the receiver unchanged. -/
def stringifyM (b : CssSelectorBuilder) : String × CssSelectorBuilder :=
  (String.join (b.selectors.map (fun selector => selector.value)), b)

/-- `combine(selector1, combinator, selector2)`: pushes a single untyped
fragment whose value interpolates the two operands' `stringify()` around
the combinator; no check is performed and nothing can throw. -/
def combine (b : CssSelectorBuilder) (selector1 : CssSelectorBuilder)
    (combinator : String) (selector2 : CssSelectorBuilder) : CssSelectorBuilder :=
  ⟨b.selectors ++
    [⟨none, selector1.stringify ++ " " ++ combinator ++ " " ++ selector2.stringify⟩]⟩

end CssSelectorBuilder

/- The facade object `cssSelectorBuilder`: each entry point constructs a
fresh builder and delegates. -/
namespace cssSelectorBuilder

def element (value : String) : Option Err × CssSelectorBuilder :=
  CssSelectorBuilder.empty.element value

def id (value : String) : Option Err × CssSelectorBuilder :=
  CssSelectorBuilder.empty.id value

def cls (value : String) : Option Err × CssSelectorBuilder :=
  CssSelectorBuilder.empty.cls value

def attr (value : String) : Option Err × CssSelectorBuilder :=
  CssSelectorBuilder.empty.attr value

def pseudoClass (value : String) : Option Err × CssSelectorBuilder :=
  CssSelectorBuilder.empty.pseudoClass value

def pseudoElement (value : String) : Option Err × CssSelectorBuilder :=
  CssSelectorBuilder.empty.pseudoElement value

def combine (selector1 : CssSelectorBuilder) (combinator : String)
    (selector2 : CssSelectorBuilder) : CssSelectorBuilder :=
  CssSelectorBuilder.empty.combine selector1 combinator selector2

end cssSelectorBuilder

/-- One fragment-appending call on the builder (the six typed methods;
`combine` is handled separately since it takes other builders). -/
inductive Call where
  | element (value : String)
  | id (value : String)
  | cls (value : String)
  | attr (value : String)
  | pseudoClass (value : String)
  | pseudoElement (value : String)
  deriving DecidableEq, Repr

/-- The kind a call appends. -/
def Call.kind : Call → Kind
  | .element _ => .element
  | .id _ => .id
  | .cls _ => .cls
  | .attr _ => .attr
  | .pseudoClass _ => .pseudoClass
  | .pseudoElement _ => .pseudoElement

/-- The documented rendered form of a call's fragment: `v`, `#v`, `.v`,
`[v]`, `:v`, `::v`. -/
def Call.rendered : Call → String
  | .element v => v
  | .id v => "#" ++ v
  | .cls v => "." ++ v
  | .attr v => "[" ++ v ++ "]"
  | .pseudoClass v => ":" ++ v
  | .pseudoElement v => "::" ++ v

/-- The fragment a successful call pushes. -/
def Call.toFragment (c : Call) : Fragment := ⟨some c.kind, c.rendered⟩

/-- Dispatch a call to the corresponding builder method. -/
def Call.apply (c : Call) (b : CssSelectorBuilder) :
    Option Err × CssSelectorBuilder :=
  match c with
  | .element v => b.element v
  | .id v => b.id v
  | .cls v => b.cls v
  | .attr v => b.attr v
  | .pseudoClass v => b.pseudoClass v
  | .pseudoElement v => b.pseudoElement v

/-- The typed call of a given kind with a given raw value. -/
def Call.ofKind : Kind → String → Call
  | .element, v => .element v
  | .id, v => .id v
  | .cls, v => .cls v
  | .attr, v => .attr v
  | .pseudoClass, v => .pseudoClass v
  | .pseudoElement, v => .pseudoElement v

/-- Run a chain of method calls; a thrown error aborts the chain
(subsequent calls of the chain are never reached in JS). -/
def runCalls (b : CssSelectorBuilder) : List Call → Option Err × CssSelectorBuilder
  | [] => (none, b)
  | c :: cs =>
    match c.apply b with
    | (some e, b') => (some e, b')
    | (none, b') => runCalls b' cs

/-- The kinds the source limits to one occurrence: exactly those whose
method calls `checkCount` (element, id, pseudoElement). -/
def Kind.single : Kind → Bool
  | .element => true
  | .id => true
  | .pseudoElement => true
  | _ => false

/-- Number of fragments of a given kind in a fragment list. -/
def countKind (l : List Fragment) (k : Kind) : Nat :=
  (l.filter (fun s => s.type == some k)).length

/-- Number of calls of a given kind in a call list. -/
def countCalls (cs : List Call) (k : Kind) : Nat :=
  (cs.filter (fun c => c.kind == k)).length

/-! ## Characterisation lemmas for the two checks and the method calls -/

lemma checkCount_eq_true_iff (b : CssSelectorBuilder) (k : Kind) :
    b.checkCount k = true ↔ countKind b.selectors k = 0 := by
  simp [CssSelectorBuilder.checkCount, countKind, List.length_eq_zero,
    List.filter_eq_nil_iff, List.any_eq_true]

lemma checkCount_false_of_countKind_pos (b : CssSelectorBuilder) (k : Kind)
    (h : 1 ≤ countKind b.selectors k) : b.checkCount k = false := by
  cases hc : b.checkCount k with
  | false => rfl
  | true => rw [checkCount_eq_true_iff] at hc; omega

lemma checkOrder_getLast (b : CssSelectorBuilder) (f : Fragment) (k pk : Kind)
    (hlast : b.selectors.getLast? = some f) (hty : f.type = some pk) :
    b.checkOrder k = !(decide (order pk > order k)) := by
  simp [CssSelectorBuilder.checkOrder, hlast, hty]

lemma checkOrder_combined (b : CssSelectorBuilder) (f : Fragment) (k : Kind)
    (hlast : b.selectors.getLast? = some f) (hty : f.type = none) :
    b.checkOrder k = true := by
  simp [CssSelectorBuilder.checkOrder, hlast, hty]

lemma apply_eq_of_checks (c : Call) (b : CssSelectorBuilder)
    (ho : b.checkOrder c.kind = true)
    (hc : c.kind.single = true → b.checkCount c.kind = true) :
    c.apply b = (none, ⟨b.selectors ++ [c.toFragment]⟩) := by
  cases c <;>
    simp_all [Call.apply, Call.kind, Call.toFragment, Call.rendered, Kind.single,
      CssSelectorBuilder.element, CssSelectorBuilder.id, CssSelectorBuilder.cls,
      CssSelectorBuilder.attr, CssSelectorBuilder.pseudoClass,
      CssSelectorBuilder.pseudoElement]

lemma apply_none_inv (c : Call) (b b' : CssSelectorBuilder)
    (h : c.apply b = (none, b')) :
    b' = ⟨b.selectors ++ [c.toFragment]⟩ ∧
      (c.kind.single = true → b.checkCount c.kind = true) := by
  cases c <;>
    (simp only [Call.apply, CssSelectorBuilder.element, CssSelectorBuilder.id,
      CssSelectorBuilder.cls, CssSelectorBuilder.attr, CssSelectorBuilder.pseudoClass,
      CssSelectorBuilder.pseudoElement] at h) <;>
    (repeat' split at h) <;>
    simp_all [Call.toFragment, Call.kind, Call.rendered, Kind.single]

lemma apply_orderViolation (c : Call) (b : CssSelectorBuilder)
    (h : b.checkOrder c.kind = false) :
    (c.apply b).1 = some Err.orderViolation := by
  cases c <;>
    simp_all [Call.apply, Call.kind, CssSelectorBuilder.element, CssSelectorBuilder.id,
      CssSelectorBuilder.cls, CssSelectorBuilder.attr, CssSelectorBuilder.pseudoClass,
      CssSelectorBuilder.pseudoElement]

lemma countKind_append (l : List Fragment) (f : Fragment) (k : Kind) :
    countKind (l ++ [f]) k =
      countKind l k + (if f.type = some k then 1 else 0) := by
  by_cases h : f.type = some k <;>
    simp [countKind, List.filter_append, List.filter_cons, h]

lemma countCalls_cons (c : Call) (cs : List Call) (k : Kind) :
    countCalls (c :: cs) k = (if c.kind = k then 1 else 0) + countCalls cs k := by
  by_cases h : c.kind = k <;>
    simp [countCalls, List.filter_cons, h, Nat.add_comm]

/-- Running a chain of calls whose kinds are pairwise non-decreasing, whose
head is admissible after the current last fragment, and whose single-use
kinds stay within the budget, raises no error and appends exactly the
calls' fragments in order. -/
lemma runCalls_all_ok (cs : List Call) : ∀ b : CssSelectorBuilder,
    List.Chain' (fun c1 c2 => order c1.kind ≤ order c2.kind) cs →
    (∀ c, cs.head? = some c → b.checkOrder c.kind = true) →
    (∀ k, Kind.single k = true → countKind b.selectors k + countCalls cs k ≤ 1) →
    runCalls b cs = (none, ⟨b.selectors ++ cs.map Call.toFragment⟩) := by
  induction cs with
  | nil => intro b _ _ _; simp [runCalls]
  | cons c cs ih =>
    intro b hchain hhead hcard
    have ho : b.checkOrder c.kind = true := hhead c rfl
    have hc : c.kind.single = true → b.checkCount c.kind = true := by
      intro hs
      have h1 := hcard c.kind hs
      rw [countCalls_cons] at h1
      simp at h1
      rw [checkCount_eq_true_iff]
      omega
    have happ := apply_eq_of_checks c b ho hc
    have hrest := List.chain'_cons'.mp hchain
    have hh2 : ∀ c', cs.head? = some c' →
        (⟨b.selectors ++ [c.toFragment]⟩ : CssSelectorBuilder).checkOrder c'.kind = true := by
      intro c' hc'
      have hrel : order c.kind ≤ order c'.kind := hrest.1 c' hc'
      have hlast : (⟨b.selectors ++ [c.toFragment]⟩ :
          CssSelectorBuilder).selectors.getLast? = some c.toFragment := by
        simp
      rw [checkOrder_getLast _ c.toFragment c'.kind c.kind hlast rfl]
      simpa using hrel
    have hh3 : ∀ k, Kind.single k = true →
        countKind (⟨b.selectors ++ [c.toFragment]⟩ :
          CssSelectorBuilder).selectors k + countCalls cs k ≤ 1 := by
      intro k hk
      have h1 := hcard k hk
      rw [countCalls_cons] at h1
      show countKind (b.selectors ++ [c.toFragment]) k + countCalls cs k ≤ 1
      rw [countKind_append]
      by_cases he : c.kind = k <;> simp [Call.toFragment, he] at h1 ⊢ <;> omega
    simp only [runCalls, happ]
    rw [ih ⟨b.selectors ++ [c.toFragment]⟩ hrest.2 hh2 hh3]
    simp

/-- C1: a chain of fragment-appending calls whose kinds are in
non-decreasing kind-rank order and which uses element, id and
pseudo-element each at most once raises no error, and `stringify()` on the
resulting builder is the concatenation, in call order with no separator,
of the documented rendered forms (`v`, `#v`, `.v`, `[v]`, `:v`, `::v`). -/
theorem chain_in_order_succeeds_and_stringifies (cs : List Call)
    (hchain : List.Chain' (fun c1 c2 => order c1.kind ≤ order c2.kind) cs)
    (he : countCalls cs Kind.element ≤ 1)
    (hi : countCalls cs Kind.id ≤ 1)
    (hp : countCalls cs Kind.pseudoElement ≤ 1) :
    (runCalls CssSelectorBuilder.empty cs).1 = none ∧
    (runCalls CssSelectorBuilder.empty cs).2.stringify
      = String.join (cs.map Call.rendered) := by
  have hcard : ∀ k, Kind.single k = true →
      countKind CssSelectorBuilder.empty.selectors k + countCalls cs k ≤ 1 := by
    intro k hk
    have hck : countKind CssSelectorBuilder.empty.selectors k = 0 := rfl
    cases k <;> simp_all [Kind.single]
  have hhead : ∀ c, cs.head? = some c →
      CssSelectorBuilder.empty.checkOrder c.kind = true := by
    intro c _; rfl
  rw [runCalls_all_ok cs CssSelectorBuilder.empty hchain hhead hcard]
  refine ⟨rfl, ?_⟩
  simp only [CssSelectorBuilder.stringify, CssSelectorBuilder.empty,
    List.nil_append, List.map_map]
  exact congrArg String.join (List.map_congr_left fun x _ => rfl)

/-- Witness for C1 at the chain `element('a').attr('x').pseudoClass('focus')`. -/
theorem chain_in_order_witness :
    (runCalls CssSelectorBuilder.empty
      [Call.element "a", Call.attr "x", Call.pseudoClass "focus"]).1 = none ∧
    (runCalls CssSelectorBuilder.empty
      [Call.element "a", Call.attr "x", Call.pseudoClass "focus"]).2.stringify
      = String.join ([Call.element "a", Call.attr "x",
          Call.pseudoClass "focus"].map Call.rendered) :=
  chain_in_order_succeeds_and_stringifies
    [Call.element "a", Call.attr "x", Call.pseudoClass "focus"]
    (by simp [List.chain'_cons, List.chain'_singleton, Call.kind, order])
    (by decide) (by decide) (by decide)

/-- C2 counterexample: after `element('a').class('b')` the builder contains
an element fragment, yet appending `element('c')` fails with the order
error (`checkOrder` runs before `checkCount`), not with the duplicate
error, so a second fragment of a once-only kind does not always fail with
DuplicateSelector. -/
theorem duplicate_after_class_raises_order_error :
    (runCalls CssSelectorBuilder.empty [Call.element "a", Call.cls "b"]).1 = none ∧
    1 ≤ countKind (runCalls CssSelectorBuilder.empty
        [Call.element "a", Call.cls "b"]).2.selectors Kind.element ∧
    ((Call.element "c").apply (runCalls CssSelectorBuilder.empty
        [Call.element "a", Call.cls "b"]).2).1 = some Err.orderViolation ∧
    Err.orderViolation ≠ Err.duplicateSelector := by
  decide

/-- C2 (amended): for every builder already containing a fragment of a
once-only kind (element, id, pseudoElement), appending another fragment of
that same kind always fails — with DuplicateSelector when the order check
passes, and with OrderViolation when the order check fails first. -/
theorem duplicate_append_always_fails (b : CssSelectorBuilder) (k : Kind)
    (v : String) (hs : k.single = true) (hdup : 1 ≤ countKind b.selectors k) :
    ((Call.ofKind k v).apply b).1 =
      some (if b.checkOrder k then Err.duplicateSelector else Err.orderViolation) := by
  have hcc : b.checkCount k = false := checkCount_false_of_countKind_pos b k hdup
  cases k <;>
    (try simp [Kind.single] at hs) <;>
    simp_all [Call.ofKind, Call.apply, Call.kind, CssSelectorBuilder.element,
      CssSelectorBuilder.id, CssSelectorBuilder.pseudoElement] <;>
    split <;> simp_all

/-- Witness for the amended C2: a builder holding only an element fragment
rejects a second `element` with DuplicateSelector. -/
theorem duplicate_append_witness :
    ((Call.ofKind Kind.element "b").apply
        ⟨[⟨some Kind.element, "a"⟩]⟩).1 =
      some (if (⟨[⟨some Kind.element, "a"⟩]⟩ : CssSelectorBuilder).checkOrder
          Kind.element then Err.duplicateSelector else Err.orderViolation) :=
  duplicate_append_always_fails ⟨[⟨some Kind.element, "a"⟩]⟩ Kind.element "b"
    rfl (by decide)

/-- C3: when the last-appended fragment has kind `k` (so kind-rank
`order k`), appending any kind of strictly smaller rank fails with the
OrderViolation error, appending any kind of rank ≥ `order k` passes the
order check, and whenever the order check fails the raised error is
OrderViolation — the order check runs before the cardinality check. -/
theorem order_check_governs_append (b : CssSelectorBuilder) (f : Fragment)
    (k k' : Kind) (v : String) (c : Call)
    (hlast : b.selectors.getLast? = some f) (hty : f.type = some k) :
    (order k' < order k →
      ((Call.ofKind k' v).apply b).1 = some Err.orderViolation) ∧
    (order k ≤ order k' → b.checkOrder k' = true) ∧
    (b.checkOrder c.kind = false → (c.apply b).1 = some Err.orderViolation) := by
  refine ⟨?_, ?_, ?_⟩
  · intro hlt
    have hkind : (Call.ofKind k' v).kind = k' := by cases k' <;> rfl
    have hfalse : b.checkOrder (Call.ofKind k' v).kind = false := by
      rw [hkind, checkOrder_getLast b f k' k hlast hty]
      simp
      omega
    exact apply_orderViolation _ _ hfalse
  · intro hle
    rw [checkOrder_getLast b f k' k hlast hty]
    simp
    omega
  · intro hfalse
    exact apply_orderViolation c b hfalse

/-- Witness for C3: last fragment of kind class; `element` (rank 0 < 2) is
rejected with OrderViolation, and rank-4 `pseudoClass` passes the order
check (second application of the theorem). -/
theorem order_check_witness :
    ((Call.ofKind Kind.element "x").apply
        ⟨[⟨some Kind.cls, ".b"⟩]⟩).1 = some Err.orderViolation ∧
    (⟨[⟨some Kind.cls, ".b"⟩]⟩ : CssSelectorBuilder).checkOrder
      Kind.pseudoClass = true := by
  have h1 := order_check_governs_append ⟨[⟨some Kind.cls, ".b"⟩]⟩
    ⟨some Kind.cls, ".b"⟩ Kind.cls Kind.element "x" (Call.element "x") rfl rfl
  have h2 := order_check_governs_append ⟨[⟨some Kind.cls, ".b"⟩]⟩
    ⟨some Kind.cls, ".b"⟩ Kind.cls Kind.pseudoClass "x" (Call.element "x") rfl rfl
  exact ⟨h1.1 (by decide), h2.2.1 (by decide)⟩

/-- `join` of a one-element list is that element. -/
lemma join_singleton (s : String) : String.join [s] = s := by
  show "" ++ s = s
  exact String.empty_append s

/-- C4: `combine` appends exactly one untyped (Combined) fragment whose
rendered text is `stringify(a) ++ " " ++ c ++ " " ++ stringify(b)`, with no
check on the operands or the combinator; the facade's `combine` does so on
a fresh builder, its `stringify` returns exactly that text, and the result
can itself be combined again. -/
theorem combine_appends_one_fragment (b0 a b d : CssSelectorBuilder)
    (c c2 : String) :
    b0.combine a c b =
      ⟨b0.selectors ++ [⟨none, a.stringify ++ " " ++ c ++ " " ++ b.stringify⟩]⟩ ∧
    cssSelectorBuilder.combine a c b =
      ⟨[⟨none, a.stringify ++ " " ++ c ++ " " ++ b.stringify⟩]⟩ ∧
    (cssSelectorBuilder.combine a c b).stringify
      = a.stringify ++ " " ++ c ++ " " ++ b.stringify ∧
    (cssSelectorBuilder.combine (cssSelectorBuilder.combine a c b) c2 d).stringify
      = (cssSelectorBuilder.combine a c b).stringify ++ " " ++ c2 ++ " "
          ++ d.stringify := by
  refine ⟨rfl, rfl, ?_, ?_⟩
  · exact join_singleton _
  · exact join_singleton _

/-- Builder states reachable through the public operations: every facade
entry point starts from `new CssSelectorBuilder()` (the empty state) and
chains successful appending calls; `combine` may splice in arbitrary other
builders, which it only reads through their `stringify`. -/
inductive Reachable : CssSelectorBuilder → Prop where
  | new : Reachable CssSelectorBuilder.empty
  | append (b b' : CssSelectorBuilder) (c : Call) :
      Reachable b → c.apply b = (none, b') → Reachable b'
  | comb (b s1 s2 : CssSelectorBuilder) (cstr : String) :
      Reachable b → Reachable (b.combine s1 cstr s2)

/-- C5: in every builder state reachable through the public operations,
fragments of kind element, id and pseudoElement each appear at most once
in the fragment sequence. -/
theorem reachable_single_kinds_at_most_once (b : CssSelectorBuilder)
    (h : Reachable b) (k : Kind) (hk : k.single = true) :
    countKind b.selectors k ≤ 1 := by
  induction h with
  | new => simp [countKind, CssSelectorBuilder.empty]
  | append b b' c hb happ ih =>
    obtain ⟨hbeq, hcc⟩ := apply_none_inv c b b' happ
    subst hbeq
    show countKind (b.selectors ++ [c.toFragment]) k ≤ 1
    rw [countKind_append]
    by_cases he : c.kind = k
    · have hzero : countKind b.selectors k = 0 := by
        rw [← checkCount_eq_true_iff]
        rw [← he]
        exact hcc (he ▸ hk)
      simp [Call.toFragment, he, hzero]
    · simp only [Call.toFragment]
      simp [he]
      exact ih
  | comb b s1 s2 cstr hb ih =>
    show countKind (b.selectors ++ [⟨none, _⟩]) k ≤ 1
    rw [countKind_append]
    simpa using ih

/-- Witness for C5 at the reachable state produced by `element('a')`. -/
theorem reachable_single_kinds_witness :
    countKind (⟨[⟨some Kind.element, "a"⟩]⟩ :
      CssSelectorBuilder).selectors Kind.element ≤ 1 :=
  reachable_single_kinds_at_most_once ⟨[⟨some Kind.element, "a"⟩]⟩
    (Reachable.append CssSelectorBuilder.empty ⟨[⟨some Kind.element, "a"⟩]⟩
      (Call.element "a") Reachable.new rfl)
    Kind.element rfl

/-- C6: a fragment-appending call that fails (either error) leaves the
builder's fragment sequence exactly as it was — in the source both
`throw`s happen before the `push`. -/
theorem append_failure_preserves_selectors (c : Call) (b b' : CssSelectorBuilder)
    (e : Err) (h : c.apply b = (some e, b')) : b' = b := by
  cases c <;>
    (simp only [Call.apply, CssSelectorBuilder.element, CssSelectorBuilder.id,
      CssSelectorBuilder.cls, CssSelectorBuilder.attr, CssSelectorBuilder.pseudoClass,
      CssSelectorBuilder.pseudoElement] at h) <;>
    (repeat' split at h) <;> simp_all

/-- Witness for C6: `element('x')` on a builder whose only fragment is a
class fails (order error) and the state is unchanged. -/
theorem append_failure_witness :
    (⟨[⟨some Kind.cls, ".b"⟩]⟩ : CssSelectorBuilder)
      = ⟨[⟨some Kind.cls, ".b"⟩]⟩ :=
  append_failure_preserves_selectors (Call.element "x")
    ⟨[⟨some Kind.cls, ".b"⟩]⟩ ⟨[⟨some Kind.cls, ".b"⟩]⟩
    Err.orderViolation (by decide)

/-- C8: when the last-appended fragment came from `combine` (it carries no
`type`), the order check passes for every incoming kind — in JS
`order[undefined] > order[k]` is false — and consequently no appending
call can raise the OrderViolation error from that state. -/
theorem combined_fragment_imposes_no_order (b : CssSelectorBuilder)
    (f : Fragment) (k : Kind) (c : Call)
    (hlast : b.selectors.getLast? = some f) (hty : f.type = none) :
    b.checkOrder k = true ∧ (c.apply b).1 ≠ some Err.orderViolation := by
  have hall : ∀ k0, b.checkOrder k0 = true := fun k0 =>
    checkOrder_combined b f k0 hlast hty
  refine ⟨hall k, ?_⟩
  cases c <;>
    simp_all [Call.apply, Call.kind, CssSelectorBuilder.element, CssSelectorBuilder.id,
      CssSelectorBuilder.cls, CssSelectorBuilder.attr, CssSelectorBuilder.pseudoClass,
      CssSelectorBuilder.pseudoElement] <;>
    split <;> simp

/-- Witness for C8: a builder holding one combined fragment accepts the
order check for `element`, and `element('x')` cannot raise OrderViolation. -/
theorem combined_fragment_witness :
    (⟨[⟨none, "a + b"⟩]⟩ : CssSelectorBuilder).checkOrder Kind.element = true ∧
    ((Call.element "x").apply ⟨[⟨none, "a + b"⟩]⟩).1
      ≠ some Err.orderViolation :=
  combined_fragment_imposes_no_order ⟨[⟨none, "a + b"⟩]⟩ ⟨none, "a + b"⟩
    Kind.element (Call.element "x") rfl rfl

/-- C10: `stringify()` does not modify the builder (its body only reads
`this.selectors`), and a second call on the post-call state returns the
same string. -/
theorem stringify_idempotent_and_pure (b : CssSelectorBuilder) :
    (b.stringifyM).2 = b ∧
    ((b.stringifyM).2.stringifyM).1 = (b.stringifyM).1 :=
  ⟨rfl, rfl⟩

/-! ## JSON helpers: `getJSON`, `fromJSON`, `Rectangle`

`getJSON` and `fromJSON` delegate to the platform primitives
`JSON.stringify`, `JSON.parse`, `Object.getOwnPropertyDescriptors` and
`Object.create`, which we model below.  JSON numbers are modelled on the
integral fragment (`Int`): the repository's documented uses of these
helpers involve only integer literals. -/

/-- A parsed JSON value. -/
inductive Json where
  | null
  | bool (b : Bool)
  | num (n : Int)
  | str (s : String)
  | arr (xs : List Json)
  | obj (fields : List (String × Json))

/-- Escape one character for a JSON string literal (quote and backslash;
the repository's inputs contain no control characters). -/
def escapeChar (c : Char) : String :=
  if c = '"' then "\\\"" else if c = '\\' then "\\\\" else String.singleton c

/-- A JSON string literal: the escaped text between double quotes. -/
def quoteJson (s : String) : String :=
  "\"" ++ String.join (s.data.map escapeChar) ++ "\""

mutual

/-- `JSON.stringify` on a structured value: object keys in insertion
order, no whitespace. -/
def Json.stringify : Json → String
  | .null => "null"
  | .bool b => if b then "true" else "false"
  | .num n => toString n
  | .str s => quoteJson s
  | .arr xs => "[" ++ stringifyItems xs ++ "]"
  | .obj fs => "\x7b" ++ stringifyFields fs ++ "\x7d"

/-- Comma-separated array items. -/
def stringifyItems : List Json → String
  | [] => ""
  | [x] => x.stringify
  | x :: y :: rest => x.stringify ++ "," ++ stringifyItems (y :: rest)

/-- Comma-separated `"key":value` members. -/
def stringifyFields : List (String × Json) → String
  | [] => ""
  | [(k, v)] => quoteJson k ++ ":" ++ v.stringify
  | (k, v) :: p :: rest =>
    quoteJson k ++ ":" ++ v.stringify ++ "," ++ stringifyFields (p :: rest)

end

/-- JSON whitespace. -/
def isWs (c : Char) : Bool :=
  c = ' ' || c = '\n' || c = '\t' || c = '\r'

/-- Drop leading whitespace. -/
def skipWs : List Char → List Char
  | [] => []
  | c :: cs => if isWs c then skipWs cs else c :: cs

/-- Split a leading run of decimal digits from the input. -/
def takeDigits : List Char → List Char × List Char
  | [] => ([], [])
  | c :: cs =>
    if c.isDigit then
      let (ds, rest) := takeDigits cs
      (c :: ds, rest)
    else ([], c :: cs)

/-- Value of a digit run. -/
def digitsToNat (ds : List Char) : Nat :=
  ds.foldl (fun acc c => acc * 10 + (c.toNat - 48)) 0

/-- Undo a string escape (the cases the repository's inputs can contain). -/
def unescapeChar (c : Char) : Char :=
  if c = 'n' then '\n' else if c = 't' then '\t' else if c = 'r' then '\r' else c

/-- Parse the remainder of a JSON string literal after its opening quote. -/
def parseStr : List Char → Except Unit (String × List Char)
  | [] => .error ()
  | '"' :: rest => .ok ("", rest)
  | '\\' :: c :: rest =>
    match parseStr rest with
    | .ok (s, r) => .ok (String.singleton (unescapeChar c) ++ s, r)
    | .error e => .error e
  | c :: rest =>
    match parseStr rest with
    | .ok (s, r) => .ok (String.singleton c ++ s, r)
    | .error e => .error e

mutual

/-- `JSON.parse`, fuel-indexed: parse one value and return the rest of the
input.  Any syntax error is the thrown `SyntaxError`. -/
def parseVal : Nat → List Char → Except Unit (Json × List Char)
  | 0, _ => .error ()
  | fuel + 1, cs =>
    match skipWs cs with
    | 'n' :: 'u' :: 'l' :: 'l' :: rest => .ok (.null, rest)
    | 't' :: 'r' :: 'u' :: 'e' :: rest => .ok (.bool true, rest)
    | 'f' :: 'a' :: 'l' :: 's' :: 'e' :: rest => .ok (.bool false, rest)
    | '"' :: rest =>
      match parseStr rest with
      | .ok (s, rest2) => .ok (.str s, rest2)
      | .error e => .error e
    | '[' :: rest =>
      (match skipWs rest with
       | ']' :: rest2 => .ok (.arr [], rest2)
       | cs2 =>
         match parseItems fuel cs2 with
         | .ok (xs, rest2) => .ok (.arr xs, rest2)
         | .error e => .error e)
    | '{' :: rest =>
      (match skipWs rest with
       | '}' :: rest2 => .ok (.obj [], rest2)
       | cs2 =>
         match parseMembers fuel cs2 with
         | .ok (fs, rest2) => .ok (.obj fs, rest2)
         | .error e => .error e)
    | '-' :: rest =>
      (match takeDigits rest with
       | ([], _) => .error ()
       | (ds, rest2) => .ok (.num (-(digitsToNat ds : Int)), rest2))
    | c :: rest =>
      if c.isDigit then
        match takeDigits (c :: rest) with
        | (ds, rest2) => .ok (.num (digitsToNat ds), rest2)
      else .error ()
    | [] => .error ()

/-- One or more comma-separated array items followed by `]`. -/
def parseItems : Nat → List Char → Except Unit (List Json × List Char)
  | 0, _ => .error ()
  | fuel + 1, cs =>
    match parseVal fuel cs with
    | .error e => .error e
    | .ok (v, rest) =>
      match skipWs rest with
      | ',' :: rest2 =>
        (match parseItems fuel rest2 with
         | .ok (xs, rest3) => .ok (v :: xs, rest3)
         | .error e => .error e)
      | ']' :: rest2 => .ok ([v], rest2)
      | _ => .error ()

/-- One or more comma-separated `"key":value` members followed by `}`. -/
def parseMembers : Nat → List Char →
    Except Unit (List (String × Json) × List Char)
  | 0, _ => .error ()
  | fuel + 1, cs =>
    match skipWs cs with
    | '"' :: rest =>
      (match parseStr rest with
       | .error e => .error e
       | .ok (key, rest2) =>
         match skipWs rest2 with
         | ':' :: rest3 =>
           (match parseVal fuel rest3 with
            | .error e => .error e
            | .ok (v, rest4) =>
              match skipWs rest4 with
              | ',' :: rest5 =>
                (match parseMembers fuel rest5 with
                 | .ok (fs, rest6) => .ok ((key, v) :: fs, rest6)
                 | .error e => .error e)
              | '}' :: rest5 => .ok ([(key, v)], rest5)
              | _ => .error ())
         | _ => .error ())
    | _ => .error ()

end

/-- `JSON.parse(s)`: parse one value, allow trailing whitespace only. -/
def jsonParse (s : String) : Except Unit Json :=
  match parseVal (s.length + 1) s.data with
  | .error e => .error e
  | .ok (v, rest) => if (skipWs rest).isEmpty then .ok v else .error ()

/-- `getJSON(obj)`: `JSON.stringify(obj)`. -/
def getJSON (obj : Json) : String :=
  obj.stringify

/-- `Object.getOwnPropertyDescriptors(v)` after `ToObject(v)`, keeping the
`value` of each own property: a TypeError on `null`, the own fields of an
object, indexed elements plus `length` for arrays and strings, and no own
properties for wrapped numbers and booleans. -/
def getOwnPropertyDescriptors : Json → Except Unit (List (String × Json))
  | .null => .error ()
  | .bool _ => .ok []
  | .num _ => .ok []
  | .str s => .ok ((s.data.enum.map
      (fun p => (toString p.1, Json.str (String.singleton p.2))))
      ++ [("length", Json.num s.length)])
  | .arr xs => .ok ((xs.enum.map (fun p => (toString p.1, p.2)))
      ++ [("length", Json.num xs.length)])
  | .obj fs => .ok fs

/-- A prototype object: the behaviour (methods) the created object
inherits.  `getArea` receives the receiver's own data fields. -/
structure ProtoMethods where
  getArea : List (String × Json) → Option Int

/-- An object built by `Object.create(proto, descriptors)`: behaviour from
the prototype, own data fields copied from the descriptors. -/
structure JsObj where
  proto : ProtoMethods
  fields : List (String × Json)

/-- Own-property lookup on the data fields. -/
def lookupField (fields : List (String × Json)) (name : String) : Option Json :=
  (fields.find? (fun p => p.1 == name)).map (fun p => p.2)

/-- `r.getArea()`: the method is resolved through the prototype and runs
on the object's own data fields. -/
def JsObj.getArea (o : JsObj) : Option Int :=
  o.proto.getArea o.fields

/-- `new Rectangle(width, height)`: own data fields `width` and `height`. -/
def Rectangle (width height : Int) : List (String × Json) :=
  [("width", Json.num width), ("height", Json.num height)]

namespace Rectangle

/-- `Rectangle.prototype`: `getArea()` returns `this.height * this.width`
(`none` when a field is missing or not a number, where JS would give
`NaN`). -/
def prototype : ProtoMethods :=
  ⟨fun this =>
    match lookupField this "height", lookupField this "width" with
    | some (Json.num h), some (Json.num w) => some (h * w)
    | _, _ => none⟩

end Rectangle

/-- `fromJSON(proto, json)`:
`Object.create(proto, Object.getOwnPropertyDescriptors(JSON.parse(json)))`. -/
def fromJSON (proto : ProtoMethods) (json : String) : Except Unit JsObj :=
  match jsonParse json with
  | .error e => .error e
  | .ok v =>
    match getOwnPropertyDescriptors v with
    | .error e => .error e
    | .ok fs => .ok ⟨proto, fs⟩

/-- C7: serialising `{height:10, width:20}` and deserialising it with the
rectangle prototype yields an object whose `height` is 10, whose `width`
is 20, and whose `getArea` — available from the prototype — returns 200 on
that data. -/
theorem fromJSON_roundtrip_rectangle :
    ∃ o : JsObj,
      fromJSON Rectangle.prototype
          (getJSON (Json.obj [("height", Json.num 10), ("width", Json.num 20)]))
        = .ok o ∧
      lookupField o.fields "height" = some (Json.num 10) ∧
      lookupField o.fields "width" = some (Json.num 20) ∧
      o.proto = Rectangle.prototype ∧
      o.getArea = some 200 :=
  ⟨⟨Rectangle.prototype, [("height", Json.num 10), ("width", Json.num 20)]⟩,
    rfl, rfl, rfl, rfl, rfl⟩

/-- C9: `"null"` is well-formed JSON (`JSON.parse` accepts it), yet
`fromJSON(proto, "null")` fails — `Object.getOwnPropertyDescriptors(null)`
throws — so deserialisation can fail on well-formed input. -/
theorem fromJSON_fails_on_wellformed_null :
    jsonParse "null" = .ok Json.null ∧
    fromJSON Rectangle.prototype "null" = .error () :=
  ⟨rfl, rfl⟩

end ObjectsTasks
